import Mathlib

/-!
# Verification of the JSON-over-HTTP RPC client

A shallow embedding of the single-file RPC helper (`doFetch`, `hasBody`,
`contentTypeHeader`, `readJsonObject`, `tryReadJsonObject`, `tryReadText`,
`doRpc` and the error classes) together with theorems settling the frozen
claims about it.

The transport is modelled as an oracle: a `FetchWorld` records whether the
deadline timer fired before the fetch completed, and the completion itself
(a `Response`, or an arbitrary rejection value).  A `Response` records the
two headers the code reads, and the outcome of reading the body as JSON or
as text.  JavaScript semantics that the code relies on (`parseInt`,
`typeof`, `JSON.stringify`, property access on `null`) are embedded
explicitly.
-/

namespace HttpJsonClient

/-- JSON values, as produced by a successful `JSON.parse`.  Numbers are
modelled as integers, which covers every numeric literal the claims and
tests exercise. -/
inductive Json where
  | null
  | bool (b : Bool)
  | num (n : Int)
  | str (s : String)
  | arr (elems : List Json)
  | obj (fields : List (String × Json))

/-- JavaScript `typeof` on a parsed JSON value.  Crucially,
`typeof null == "object"` and `typeof [] == "object"`. -/
def jsTypeof : Json → String
  | .null => "object"
  | .bool _ => "boolean"
  | .num _ => "number"
  | .str _ => "string"
  | .arr _ => "object"
  | .obj _ => "object"

/-- Prefix test on character lists, the meaning of JavaScript
`String.prototype.startsWith`. -/
def listStartsWith : List Char → List Char → Bool
  | _, [] => true
  | [], _ :: _ => false
  | c :: cs, p :: ps => c == p && listStartsWith cs ps

/-- JavaScript `s.startsWith(pre)`. -/
def strStartsWith (s pre : String) : Bool :=
  listStartsWith s.toList pre.toList

/-- ASCII lowercasing of one character; header values compared by the code
are ASCII, where JavaScript `toLowerCase` agrees with this. -/
def asciiLowerChar (c : Char) : Char :=
  if 'A' ≤ c ∧ c ≤ 'Z' then Char.ofNat (c.toNat + 32) else c

/-- JavaScript `s.toLowerCase()` on ASCII strings. -/
def strToLower (s : String) : String :=
  String.mk (s.toList.map asciiLowerChar)

/-- The whitespace characters `parseInt` skips. -/
def jsIsSpace (c : Char) : Bool :=
  c = ' ' || c = '\t' || c = '\n' || c = '\r' || c = '\x0b' || c = '\x0c'

/-- Value of a character as a digit in the given radix, if any. -/
def charDigit (radix : Nat) (c : Char) : Option Nat :=
  let v : Option Nat :=
    if '0' ≤ c ∧ c ≤ '9' then some (c.toNat - '0'.toNat)
    else if 'a' ≤ c ∧ c ≤ 'z' then some (c.toNat - 'a'.toNat + 10)
    else if 'A' ≤ c ∧ c ≤ 'Z' then some (c.toNat - 'A'.toNat + 10)
    else none
  match v with
  | some d => if d < radix then some d else none
  | none => none

/-- Longest prefix of digits valid in the given radix. -/
def takeDigits (radix : Nat) : List Char → List Nat
  | [] => []
  | c :: rest =>
    match charDigit radix c with
    | some d => d :: takeDigits radix rest
    | none => []

/-- Accumulate a digit list into a number. -/
def digitsToNat (radix : Nat) (ds : List Nat) : Nat :=
  ds.foldl (fun acc d => acc * radix + d) 0

/-- JavaScript `Number.parseInt(s)` with the radix argument omitted:
skip whitespace, read an optional sign, switch to base 16 after a `0x`
prefix, then take the longest digit prefix; `none` models `NaN`. -/
def jsParseInt (s : String) : Option Int :=
  let cs := s.toList.dropWhile jsIsSpace
  let signAndRest : Int × List Char :=
    match cs with
    | '-' :: rest => (-1, rest)
    | '+' :: rest => (1, rest)
    | _ => (1, cs)
  let radixAndRest : Nat × List Char :=
    match signAndRest.2 with
    | '0' :: 'x' :: rest => (16, rest)
    | '0' :: 'X' :: rest => (16, rest)
    | rest => (10, rest)
  let digits := takeDigits radixAndRest.1 radixAndRest.2
  match digits with
  | [] => none
  | _ => some (signAndRest.1 * (digitsToNat radixAndRest.1 digits : Int))

/-- Two lowercase hex digits for a byte, used by the `\u00XX` escape. -/
def hexByte (n : Nat) : String :=
  let digit (d : Nat) : Char :=
    if d < 10 then Char.ofNat ('0'.toNat + d) else Char.ofNat ('a'.toNat + (d - 10))
  String.mk [digit (n / 16 % 16), digit (n % 16)]

/-- How `JSON.stringify` escapes one character inside a string literal. -/
def jsonEscapeChar (c : Char) : String :=
  if c = '"' then "\\\""
  else if c = '\\' then "\\\\"
  else if c = '\x08' then "\\b"
  else if c = '\t' then "\\t"
  else if c = '\n' then "\\n"
  else if c = '\x0c' then "\\f"
  else if c = '\r' then "\\r"
  else if c.toNat < 32 then "\\u00" ++ hexByte c.toNat
  else String.singleton c

/-- Embedding of `JSON.stringify` on a string: double quotes around the escaped body. -/
def jsonStringifyString (s : String) : String :=
  "\"" ++ String.join (s.toList.map jsonEscapeChar) ++ "\""

mutual

/-- Embedding of `JSON.stringify` on a parsed JSON value (no cycles, no `undefined`). -/
def jsonStringify : Json → String
  | .null => "null"
  | .bool true => "true"
  | .bool false => "false"
  | .num n => toString n
  | .str s => jsonStringifyString s
  | .arr elems => "[" ++ String.intercalate "," (jsonStringifyList elems) ++ "]"
  | .obj fields => "\x7b" ++ String.intercalate "," (jsonStringifyFields fields) ++ "\x7d"

def jsonStringifyList : List Json → List String
  | [] => []
  | v :: rest => jsonStringify v :: jsonStringifyList rest

def jsonStringifyFields : List (String × Json) → List String
  | [] => []
  | (k, v) :: rest => (jsonStringifyString k ++ ":" ++ jsonStringify v) :: jsonStringifyFields rest

end

/-- JavaScript property access `v.name` on a parsed JSON value: reading a
property of `null` throws a `TypeError`; an object yields the field value
(or `undefined`, modelled as `none`); arrays and boxed primitives yield
`undefined` for the names used here. -/
def jsGetProp : Json → String → Except String (Option Json)
  | .null, _ => .error "TypeError: cannot read properties of null"
  | .obj fields, name => .ok ((fields.find? (fun p => p.1 = name)).map (fun p => p.2))
  | .arr _, _ => .ok none
  | .bool _, _ => .ok none
  | .num _, _ => .ok none
  | .str _, _ => .ok none

/-! ## The error classes (source lines 1-28) -/

/-- Fixed message of `TimeoutError`. -/
def timeoutErrorMessage : String := "Error talking to server.  Please try again."

/-- Fixed message of `NetworkError`. -/
def networkErrorMessage : String := "Error connecting to server.  Please check your connection."

/-- A `ServerError` value: the constructor stores the prefixed message and
the optional status (source lines 21-28). -/
structure ServerError where
  message : String
  status : Option Nat

/-- The `ServerError` constructor: prepends the fixed prefix to the message
it is given, as in `super(`Error talking to server: ${message}`)`. -/
def ServerError.make (message : String) (status : Option Nat) : ServerError :=
  { message := "Error talking to server: " ++ message, status := status }

/-- The errors `doRpc` can raise.  The first four are the taxonomy classes
of the source; `typeError` models a JavaScript `TypeError` escaping `doRpc`
uncaught, outside the taxonomy (reading a property of `null` throws one). -/
inductive RpcErr where
  | timeoutError
  | networkError
  | serverError (e : ServerError)
  | userError (message : String) (status : Nat)
  | typeError (message : String)

/-- Raising `new ServerError(message, status)`, as seen by the caller. -/
def mkServerError (message : String) (status : Option Nat) : RpcErr :=
  .serverError (ServerError.make message status)

/-! ## Transport model -/

/-- The options bag accepted by `doFetch`/`doRpc`. -/
structure FetchOpts where
  timeout_ms : Option Nat
  headers : Option (List (String × String))

/-- The `body` argument: a JSON-serializable value, or an opaque binary
payload such as a `Blob` (carrying its raw content). -/
inductive BodyArg where
  | json (v : Json)
  | blob (data : String)

/-- The `RequestInit` options object built by `doFetch` (source lines
39-50). -/
structure RequestInit where
  cache : String
  credentials : String
  headers : Option (List (String × String))
  method : String
  redirect : String
  body : Option String

/-- JavaScript object spread `\x7b...base, ...extra\x7d` on string-keyed
records: keys of `extra` override keys of `base`. -/
def jsSpread (base extra : List (String × String)) : List (String × String) :=
  base.filter (fun p => (extra.find? (fun q => q.1 == p.1)).isNone) ++ extra

/-- Body serialization `JSON.stringify(body)`.  A `Blob` has no enumerable own properties and
no `toJSON`, so `JSON.stringify` of a `Blob` is the two-character string
`\x7b\x7d`, not the payload. -/
def jsStringifyBodyArg : BodyArg → String
  | .json v => jsonStringify v
  | .blob _ => "\x7b\x7d"

/-- Request construction inside `doFetch` (source lines 38-50): the fixed
options, then — when `body != undefined` — the JSON-stringified body and a
`content-type: application/json` default merged under the caller headers. -/
def buildRequestOptions (method : String) (body : Option BodyArg)
    (opts : Option FetchOpts) : RequestInit :=
  let base : RequestInit := {
    cache := "no-store",
    credentials := "omit",
    headers := opts.bind (fun o => o.headers),
    method := method,
    redirect := "error",
    body := none }
  match body with
  | none => base
  | some b =>
    { base with
      body := some (jsStringifyBodyArg b),
      headers := some (jsSpread [("content-type", "application/json")]
        ((opts.bind (fun o => o.headers)).getD [])) }

/-- Timeout resolution `opts?.timeout_ms ?? 5000` (source line 51). -/
def resolveTimeoutMs (opts : Option FetchOpts) : Nat :=
  (opts.bind (fun o => o.timeout_ms)).getD 5000

/-! ## Response model -/

/-- Outcome of `res.json()`: a decoded value, a `SyntaxError` (the body was
read but is not valid JSON), or any other failure while reading. -/
inductive JsonBodyResult where
  | ok (v : Json)
  | jsonSyntaxError
  | readErr

/-- Outcome of `res.text()`. -/
inductive TextBodyResult where
  | ok (s : String)
  | readErr

/-- A completed HTTP response, recording exactly what the code observes:
the status line, the two headers it reads, and the body-read outcomes.
The code reads the body at most once per call, so carrying both outcomes
is sound. -/
structure Response where
  status : Nat
  statusText : String
  contentType : Option String
  contentLength : Option String
  jsonBody : JsonBodyResult
  textBody : TextBodyResult

/-- The `fetch` call either resolves with a response or rejects with an arbitrary
value (source line 58). -/
inductive FetchResult where
  | ok (response : Response)
  | err (e : String)

/-- The oracle for one exchange: whether the deadline timer fired before
`fetch` settled (`timedOut`, source lines 52-56), and how `fetch`
settled. -/
structure FetchWorld where
  timedOut : Bool
  result : FetchResult

/-! ## The embedded functions -/

/-- Embedding of `doFetch` (source lines 30-68): build the request options,
resolve the timeout, then classify the completion.  On a rejected `fetch`,
the thrown class depends only on whether the `timedOut` flag was set by the
deadline timer — the rejection value `e` is never inspected.  The `url`
argument flows only into the transport call, which the oracle stands in
for. -/
def doFetch (method url : String) (body : Option BodyArg) (opts : Option FetchOpts)
    (world : FetchWorld) : Except RpcErr Response :=
  let _options := buildRequestOptions method body opts
  let _timeout_ms := resolveTimeoutMs opts
  let _target := url
  match world.result with
  | .ok response => .ok response
  | .err _ => .error (if world.timedOut then .timeoutError else .networkError)

/-- Embedding of `contentTypeHeader` (source lines 70-72). -/
def contentTypeHeader (response : Response) : String :=
  strToLower (response.contentType.getD "")

/-- Embedding of `hasBody` (source lines 74-77): `parseInt` the
content-length header (defaulting the missing header to the string `0`) and
compare with zero; `NaN > 0` is false. -/
def hasBody (response : Response) : Bool :=
  match jsParseInt (response.contentLength.getD "0") with
  | some contentLength => decide (0 < contentLength)
  | none => false

/-- Embedding of `readJsonObject` (source lines 79-100): require a JSON
content-type, decode, and reject values whose `typeof` is not `object`
(which lets `null` and arrays through, since their `typeof` is
`object`). -/
def readJsonObject (res : Response) : Except RpcErr Json :=
  let contentType := contentTypeHeader res
  if !(strStartsWith contentType "application/json") then
    .error (mkServerError
      ("server response content-type is not json: " ++ jsonStringifyString contentType) none)
  else
    match res.jsonBody with
    | .jsonSyntaxError => .error (mkServerError "server returned malformed json data" none)
    | .readErr => .error .networkError
    | .ok result =>
      if jsTypeof result ≠ "object" then
        .error (mkServerError
          ("server response is not a JSON object: " ++ jsonStringify result) none)
      else
        .ok result

/-- Embedding of `tryReadJsonObject` (source lines 102-120): best-effort
JSON read; every internal failure yields `undefined` (`none`).  As in
`readJsonObject`, the `typeof` guard lets `null` and arrays through. -/
def tryReadJsonObject (res : Response) : Option Json :=
  if !(hasBody res) then none
  else if !(strStartsWith (contentTypeHeader res) "application/json") then none
  else
    match res.jsonBody with
    | .ok result => if jsTypeof result ≠ "object" then none else some result
    | .jsonSyntaxError => none
    | .readErr => none

/-- Embedding of `tryReadText` (source lines 122-135): best-effort text
read, guarded by `hasBody` and a `text/plain` content-type. -/
def tryReadText (res : Response) : Option String :=
  if !(hasBody res) then none
  else if !(strStartsWith (contentTypeHeader res) "text/plain") then none
  else
    match res.textBody with
    | .ok s => some s
    | .readErr => none

/-- Embedding of the tail of the failure path of `doRpc` (source lines
159-163): the text diagnostic and the plain fallback. -/
def classifyFailureTail (response : Response) : Except RpcErr Json :=
  match tryReadText response with
  | some responseText =>
    .error (mkServerError
      (toString response.status ++ " " ++ response.statusText ++ ", " ++ responseText)
      (some response.status))
  | none =>
    .error (mkServerError (toString response.status ++ " " ++ response.statusText)
      (some response.status))

/-- Embedding of the response handling of `doRpc` (source lines 148-163).
On the failure path the guard is
`responseJson !== undefined && typeof responseJson.user_error_message === "string"`:
when the best-effort read returned `null` (whose `typeof` is `object`),
the property access throws a `TypeError` that `doRpc` does not catch. -/
def classifyResponse (response : Response) : Except RpcErr Json :=
  if 200 ≤ response.status ∧ response.status ≤ 299 then
    if !(hasBody response) then
      .ok (.obj [])
    else
      readJsonObject response
  else
    match tryReadJsonObject response with
    | some responseJson =>
      match jsGetProp responseJson "user_error_message" with
      | .error m => .error (.typeError m)
      | .ok (some (.str s)) => .error (.userError s response.status)
      | .ok _ => classifyFailureTail response
    | none => classifyFailureTail response

/-- Embedding of `doRpc` (source lines 137-164): dispatch through
`doFetch`, then classify the response; errors thrown by `doFetch`
propagate. -/
def doRpc (method url : String) (body : Option BodyArg) (opts : Option FetchOpts)
    (world : FetchWorld) : Except RpcErr Json :=
  match doFetch method url body opts world with
  | .error e => .error e
  | .ok response => classifyResponse response

/-! ## The ServerError classification predicates -/

/-- Modelled from the spec: the `is400` method of `ServerError` is
exercised by the repository tests but its definition is not among the
source files; the spec says it is true iff the status is in [400,499] and
false when the status is undefined or outside that range. -/
def ServerError.is400 (e : ServerError) : Bool :=
  match e.status with
  | some status => decide (400 ≤ status ∧ status ≤ 499)
  | none => false

/-- Modelled from the spec: the `is500` method of `ServerError` is
exercised by the repository tests but its definition is not among the
source files; the spec says it is true iff the status is in [500,599] and
false when the status is undefined or outside that range. -/
def ServerError.is500 (e : ServerError) : Bool :=
  match e.status with
  | some status => decide (500 ≤ status ∧ status ≤ 599)
  | none => false

/-! ## Shared lemmas -/

/-- With the transport completing in a response, `doRpc` is exactly the
response classification, whatever the request arguments and the timer
flag. -/
theorem doRpc_ok_world (method url : String) (body : Option BodyArg)
    (opts : Option FetchOpts) (t : Bool) (res : Response) :
    doRpc method url body opts { timedOut := t, result := .ok res } =
      classifyResponse res := rfl

/-- A missing content-length header means no body: `parseInt "0" = 0`. -/
theorem hasBody_false_of_missing (res : Response)
    (hcl : res.contentLength = none) : hasBody res = false := by
  simp only [hasBody, hcl, Option.getD_none]
  rfl

/-- A content-length header that `parseInt` cannot turn into a positive
number means no body. -/
theorem hasBody_false_of_nonpositive (res : Response) (s : String)
    (hcl : res.contentLength = some s)
    (hnp : ∀ n : Int, jsParseInt s = some n → n ≤ 0) :
    hasBody res = false := by
  simp only [hasBody, hcl, Option.getD_some]
  cases hp : jsParseInt s with
  | none => rfl
  | some n =>
    have hn := hnp n hp
    simp only [decide_eq_false_iff_not]
    omega

/-- Without a body, both best-effort reads of the failure path are
skipped. -/
theorem bestEffort_reads_skip_of_no_body (res : Response)
    (hbody : hasBody res = false) :
    tryReadJsonObject res = none ∧ tryReadText res = none := by
  constructor <;> simp [tryReadJsonObject, tryReadText, hbody]

/-- On a 2xx status without a body, classification returns the empty
object. -/
theorem classifyResponse_no_body (res : Response)
    (hst : 200 ≤ res.status ∧ res.status ≤ 299)
    (hbody : hasBody res = false) :
    classifyResponse res = .ok (.obj []) := by
  simp [classifyResponse, if_pos hst, hbody]

/-- On a 2xx status with a body, classification is `readJsonObject`. -/
theorem classifyResponse_with_body (res : Response)
    (hst : 200 ≤ res.status ∧ res.status ≤ 299)
    (hbody : hasBody res = true) :
    classifyResponse res = readJsonObject res := by
  simp [classifyResponse, if_pos hst, hbody]

/-! ## Concrete inputs used by counterexamples and witnesses -/

/-- A 400 response whose JSON body decodes to the bare value `null`. -/
def res400null : Response :=
  { status := 400, statusText := "Bad Request", contentType := some "application/json",
    contentLength := some "4", jsonBody := .ok .null, textBody := .readErr }

/-- A 200 response whose JSON body decodes to the empty array. -/
def res200arr : Response :=
  { status := 200, statusText := "OK", contentType := some "application/json",
    contentLength := some "2", jsonBody := .ok (.arr []), textBody := .readErr }

/-- A 200 response whose JSON body decodes to the bare number 1, as in the
repository test named json but not object. -/
def res200num : Response :=
  { status := 200, statusText := "OK", contentType := some "application/json",
    contentLength := some "1", jsonBody := .ok (.num 1), textBody := .readErr }

/-- A 200 response with a text/plain content-type, as in the repository
test named response content-type not json. -/
def res200text : Response :=
  { status := 200, statusText := "OK", contentType := some "text/plain",
    contentLength := some "1", jsonBody := .readErr, textBody := .ok "a" }

/-- A 200 response declaring a JSON body that is malformed. -/
def res200badJson : Response :=
  { status := 200, statusText := "OK", contentType := some "application/json",
    contentLength := some "1", jsonBody := .jsonSyntaxError, textBody := .readErr }

/-- A 200 response declaring a JSON body whose read fails at the transport
level, as in the repository test named response truncated. -/
def res200readErr : Response :=
  { status := 200, statusText := "OK", contentType := some "application/json",
    contentLength := some "10", jsonBody := .readErr, textBody := .readErr }

/-- A 200 response with no content-length header. -/
def res200noLength : Response :=
  { status := 200, statusText := "OK", contentType := none,
    contentLength := none, jsonBody := .readErr, textBody := .readErr }

/-- A 200 response with a non-numeric content-length header. -/
def res200badLength : Response :=
  { status := 200, statusText := "OK", contentType := some "application/json",
    contentLength := some "abc", jsonBody := .ok (.num 1), textBody := .ok "a" }

/-- A 400 response with a non-numeric content-length header. -/
def res400badLength : Response :=
  { status := 400, statusText := "Bad Request", contentType := some "application/json",
    contentLength := some "abc", jsonBody := .ok (.obj [("user_error_message", .str "e")]),
    textBody := .ok "e" }

/-- A 400 response whose JSON body carries a string `user_error_message`
and whose text read would also succeed, as in the repository test named
user error message. -/
def res400user : Response :=
  { status := 400, statusText := "Bad Request", contentType := some "application/json",
    contentLength := some "29",
    jsonBody := .ok (.obj [("user_error_message", .str "err1")]), textBody := .ok "other" }

/-! ## Claims -/

/-- C1: the claim says every failing `doRpc` call throws exactly one error
of the four taxonomy kinds, for every body content of a non-2xx response,
including a JSON body whose decoded top-level value is null.  The code
violates this: on a 400 response whose JSON body is the bare value null,
the best-effort read returns null (its JavaScript typeof is object), and
the guard then reads `user_error_message` off null, throwing a TypeError
that escapes `doRpc` outside the taxonomy. -/
theorem doRpc_nonOk_null_body_typeError_escapes :
    tryReadJsonObject res400null = some .null ∧
    doRpc "GET" "url" none none { timedOut := false, result := .ok res400null } =
      .error (.typeError "TypeError: cannot read properties of null") :=
  ⟨rfl, rfl⟩

/-- C2: for every `ServerError` value, `is400` is true iff its status is
in [400,499] and `is500` is true iff its status is in [500,599]; both are
false when the status is undefined or outside those ranges. -/
theorem serverError_is400_is500_ranges :
    (∀ e : ServerError, e.is400 = true ↔ ∃ s, e.status = some s ∧ 400 ≤ s ∧ s ≤ 499) ∧
    (∀ e : ServerError, e.is500 = true ↔ ∃ s, e.status = some s ∧ 500 ≤ s ∧ s ≤ 599) := by
  constructor <;> intro e <;> cases h : e.status <;>
    simp [ServerError.is400, ServerError.is500, h]

/-- C3: the claim says an opaque binary payload (a Blob) passed as the
body is sent unchanged with no forced content-type.  The code violates
this: `body != undefined` holds for a Blob, so the Blob is run through
`JSON.stringify` — yielding the two-character text given by
`jsStringifyBodyArg` rather than the payload — and a
`content-type: application/json` header is forced onto the request.  The
repository test named POST blob expects the raw payload on the wire, so
the test contradicts the code. -/
theorem doFetch_blob_body_stringified_and_content_type_forced :
    (buildRequestOptions "POST" (some (.blob "a1")) none).body =
      some (jsStringifyBodyArg (.blob "a1")) ∧
    jsStringifyBodyArg (.blob "a1") ≠ "a1" ∧
    (buildRequestOptions "POST" (some (.blob "a1")) none).headers =
      some [("content-type", "application/json")] :=
  ⟨rfl, by decide, rfl⟩

/-- C4 counterexample: the claim says a 2xx JSON response whose decoded
top-level value is not a JSON object — naming null and arrays among the
examples — throws a ServerError.  On a 2xx response whose body decodes to
the empty array, `doRpc` instead succeeds and returns the array: the
JavaScript typeof of an array is object, so the non-object guard does not
fire. -/
theorem doRpc_2xx_array_value_returned :
    doRpc "GET" "url" none none { timedOut := false, result := .ok res200arr } =
      .ok (.arr []) ∧
    doRpc "GET" "url" none none { timedOut := false, result := .ok res200arr } ≠
      .error (mkServerError
        ("server response is not a JSON object: " ++ jsonStringify (.arr [])) none) :=
  ⟨rfl, fun h => Except.noConfusion h⟩

/-- C4 amended: for every 2xx response with a declared body and JSON
content-type whose body decodes to a value of JavaScript typeof other than
object — a bare number, string, or boolean — `doRpc` throws ServerError
with message `server response is not a JSON object: ` followed by the
JSON serialization of the value; a decoded null or array has typeof
object, so it is instead returned as the success value unchanged. -/
theorem doRpc_2xx_nonobject_primitive_serverError
    (method url : String) (body : Option BodyArg) (opts : Option FetchOpts)
    (t : Bool) (res : Response) (v : Json)
    (hst : 200 ≤ res.status ∧ res.status ≤ 299)
    (hbody : hasBody res = true)
    (hct : strStartsWith (contentTypeHeader res) "application/json" = true)
    (hjson : res.jsonBody = .ok v)
    (htype : jsTypeof v ≠ "object") :
    doRpc method url body opts { timedOut := t, result := .ok res } =
      .error (mkServerError
        ("server response is not a JSON object: " ++ jsonStringify v) none) := by
  rw [doRpc_ok_world, classifyResponse_with_body res hst hbody]
  simp [readJsonObject, hct, hjson, if_pos htype]

/-- C4 amended, witness: the repository test named json but not object —
a 200 response whose body is the bare number 1 — yields the ServerError
with the serialized value in the message. -/
theorem doRpc_2xx_nonobject_primitive_serverError_witness :
    (200 ≤ res200num.status ∧ res200num.status ≤ 299) ∧
    hasBody res200num = true ∧
    strStartsWith (contentTypeHeader res200num) "application/json" = true ∧
    jsTypeof (.num 1) ≠ "object" ∧
    doRpc "GET" "url" none none { timedOut := false, result := .ok res200num } =
      .error (mkServerError ("server response is not a JSON object: " ++ jsonStringify (.num 1)) none) :=
  ⟨by decide, rfl, rfl, by decide,
    doRpc_2xx_nonobject_primitive_serverError "GET" "url" none none false res200num (.num 1)
      (by decide) rfl rfl rfl (by decide)⟩

/-- C5: for every non-2xx response whose best-effort JSON read yields an
object carrying a string-typed `user_error_message` field, `doRpc` throws
UserError with exactly that string and the response status; the
conclusion holds for every text body, so this takes priority over the
text diagnostic and the plain ServerError fallback. -/
theorem doRpc_failure_userError_priority
    (method url : String) (body : Option BodyArg) (opts : Option FetchOpts)
    (t : Bool) (res : Response) (fields : List (String × Json)) (msg : String)
    (hst : ¬(200 ≤ res.status ∧ res.status ≤ 299))
    (hjson : tryReadJsonObject res = some (.obj fields))
    (hmsg : jsGetProp (.obj fields) "user_error_message" = .ok (some (.str msg))) :
    doRpc method url body opts { timedOut := t, result := .ok res } =
      .error (.userError msg res.status) := by
  rw [doRpc_ok_world]
  simp [classifyResponse, if_neg hst, hjson, hmsg]

/-- C5 witness: the repository test named user error message — a 400
response whose JSON body has `user_error_message` equal to `err1` and
whose text read would also succeed — yields UserError carrying `err1` and
status 400. -/
theorem doRpc_failure_userError_priority_witness :
    ¬(200 ≤ res400user.status ∧ res400user.status ≤ 299) ∧
    tryReadJsonObject res400user = some (.obj [("user_error_message", .str "err1")]) ∧
    doRpc "GET" "url" none none { timedOut := false, result := .ok res400user } =
      .error (.userError "err1" 400) :=
  ⟨by decide, rfl,
    doRpc_failure_userError_priority "GET" "url" none none false res400user
      [("user_error_message", .str "err1")] "err1" (by decide) rfl rfl⟩

/-- C6: for every 2xx response whose content-length header is missing or
parses to a value at most 0, `doRpc` returns the empty JSON object.  The
statement quantifies over every body-read outcome, including reads that
would fail, so no reading or decoding of the body can be involved. -/
theorem doRpc_2xx_no_declared_body_returns_empty_object
    (method url : String) (body : Option BodyArg) (opts : Option FetchOpts)
    (t : Bool) (res : Response)
    (hst : 200 ≤ res.status ∧ res.status ≤ 299)
    (hcl : res.contentLength = none ∨
      ∃ s n, res.contentLength = some s ∧ jsParseInt s = some n ∧ n ≤ 0) :
    doRpc method url body opts { timedOut := t, result := .ok res } = .ok (.obj []) := by
  rw [doRpc_ok_world]
  have hbody : hasBody res = false := by
    rcases hcl with h | ⟨s, n, hs, hp, hn⟩
    · exact hasBody_false_of_missing res h
    · refine hasBody_false_of_nonpositive res s hs (fun m hm => ?_)
      rw [hp] at hm
      cases hm
      omega
  exact classifyResponse_no_body res hst hbody

/-- C6 witness: a 200 response with no content-length header and failing
body reads still yields the empty object. -/
theorem doRpc_2xx_no_declared_body_returns_empty_object_witness :
    (200 ≤ res200noLength.status ∧ res200noLength.status ≤ 299) ∧
    res200noLength.contentLength = none ∧
    doRpc "GET" "url" none none { timedOut := false, result := .ok res200noLength } =
      .ok (.obj []) :=
  ⟨by decide, rfl,
    doRpc_2xx_no_declared_body_returns_empty_object "GET" "url" none none false
      res200noLength (by decide) (Or.inl rfl)⟩

/-- C7: for every 2xx response with a declared body whose lowercased
content-type does not start with application/json, `doRpc` throws
ServerError — not NetworkError — whose stored message is the fixed prefix
followed by `server response content-type is not json: ` and the quoted
content-type. -/
theorem doRpc_2xx_content_type_not_json_serverError
    (method url : String) (body : Option BodyArg) (opts : Option FetchOpts)
    (t : Bool) (res : Response)
    (hst : 200 ≤ res.status ∧ res.status ≤ 299)
    (hbody : hasBody res = true)
    (hct : strStartsWith (contentTypeHeader res) "application/json" = false) :
    doRpc method url body opts { timedOut := t, result := .ok res } =
      .error (mkServerError
        ("server response content-type is not json: " ++ jsonStringifyString (contentTypeHeader res))
        none) := by
  rw [doRpc_ok_world, classifyResponse_with_body res hst hbody]
  simp [readJsonObject, hct]

/-- C7 witness: the repository test named response content-type not json —
a 200 response with content-type text/plain — yields a ServerError whose
full user-visible message is
`Error talking to server: server response content-type is not json: "text/plain"`. -/
theorem doRpc_2xx_content_type_not_json_serverError_witness :
    (200 ≤ res200text.status ∧ res200text.status ≤ 299) ∧
    hasBody res200text = true ∧
    strStartsWith (contentTypeHeader res200text) "application/json" = false ∧
    doRpc "GET" "url" none none { timedOut := false, result := .ok res200text } =
      .error (.serverError
        { message := "Error talking to server: server response content-type is not json: \"text/plain\"",
          status := none }) :=
  ⟨by decide, rfl, rfl,
    doRpc_2xx_content_type_not_json_serverError "GET" "url" none none false res200text
      (by decide) rfl rfl⟩

/-- C8: for every 2xx response with a declared body and JSON content-type,
a JSON syntax failure while decoding yields ServerError with the fixed
message `server returned malformed json data`, and any other failure while
reading the body yields NetworkError. -/
theorem doRpc_2xx_json_decode_failure_classification
    (method url : String) (body : Option BodyArg) (opts : Option FetchOpts)
    (t : Bool) (res : Response)
    (hst : 200 ≤ res.status ∧ res.status ≤ 299)
    (hbody : hasBody res = true)
    (hct : strStartsWith (contentTypeHeader res) "application/json" = true) :
    (res.jsonBody = .jsonSyntaxError →
      doRpc method url body opts { timedOut := t, result := .ok res } =
        .error (mkServerError "server returned malformed json data" none)) ∧
    (res.jsonBody = .readErr →
      doRpc method url body opts { timedOut := t, result := .ok res } =
        .error .networkError) := by
  constructor <;> intro hj <;>
    rw [doRpc_ok_world, classifyResponse_with_body res hst hbody] <;>
    simp [readJsonObject, hct, hj]

/-- C8 witness: the repository tests named invalid json and response
truncated — a 200 JSON response with a malformed body, and one whose read
fails mid-transfer — yield the fixed-message ServerError and NetworkError
respectively. -/
theorem doRpc_2xx_json_decode_failure_classification_witness :
    res200badJson.jsonBody = .jsonSyntaxError ∧
    doRpc "GET" "url" none none { timedOut := false, result := .ok res200badJson } =
      .error (mkServerError "server returned malformed json data" none) ∧
    res200readErr.jsonBody = .readErr ∧
    doRpc "GET" "url" none none { timedOut := false, result := .ok res200readErr } =
      .error .networkError :=
  ⟨rfl,
    (doRpc_2xx_json_decode_failure_classification "GET" "url" none none false res200badJson
      (by decide) rfl rfl).1 rfl,
    rfl,
    (doRpc_2xx_json_decode_failure_classification "GET" "url" none none false res200readErr
      (by decide) rfl rfl).2 rfl⟩

/-- C9: when the transport completes with a failure, the thrown kind is
decided solely by whether the deadline timer fired first: TimeoutError
when it did, NetworkError otherwise — the rejection value is never
inspected, so two different transport failures classify identically; and
the deadline defaults to 5000 milliseconds when no timeout option is
given. -/
theorem doFetch_failure_classified_by_deadline_race :
    (∀ (method url : String) (body : Option BodyArg) (opts : Option FetchOpts)
       (t : Bool) (e : String),
      doRpc method url body opts { timedOut := t, result := .err e } =
        .error (if t then RpcErr.timeoutError else RpcErr.networkError)) ∧
    (∀ (method url : String) (body : Option BodyArg) (opts : Option FetchOpts)
       (t : Bool) (e₁ e₂ : String),
      doRpc method url body opts { timedOut := t, result := .err e₁ } =
        doRpc method url body opts { timedOut := t, result := .err e₂ }) ∧
    resolveTimeoutMs none = 5000 ∧
    (∀ hdrs, resolveTimeoutMs (some { timeout_ms := none, headers := hdrs }) = 5000) :=
  ⟨fun _ _ _ _ _ _ => rfl, fun _ _ _ _ _ _ _ => rfl, rfl, fun _ => rfl⟩

/-- C10: a content-length header that is present but does not parse to a
positive number is treated as declaring no body: a 2xx response yields the
empty object with no content-type or decode error — even though the
concrete inputs carry a decodable body — and on a non-2xx response both
best-effort diagnostic reads yield nothing, leaving the plain ServerError
fallback. -/
theorem doRpc_unparseable_content_length_no_body
    (method url : String) (body : Option BodyArg) (opts : Option FetchOpts)
    (t : Bool) (res : Response) (s : String)
    (hcl : res.contentLength = some s)
    (hnp : ∀ n : Int, jsParseInt s = some n → n ≤ 0) :
    ((200 ≤ res.status ∧ res.status ≤ 299) →
      doRpc method url body opts { timedOut := t, result := .ok res } = .ok (.obj [])) ∧
    (¬(200 ≤ res.status ∧ res.status ≤ 299) →
      tryReadJsonObject res = none ∧ tryReadText res = none ∧
      doRpc method url body opts { timedOut := t, result := .ok res } =
        .error (mkServerError (toString res.status ++ " " ++ res.statusText)
          (some res.status))) := by
  have hbody := hasBody_false_of_nonpositive res s hcl hnp
  obtain ⟨hjson, htext⟩ := bestEffort_reads_skip_of_no_body res hbody
  constructor
  · intro hst
    rw [doRpc_ok_world]
    exact classifyResponse_no_body res hst hbody
  · intro hst
    refine ⟨hjson, htext, ?_⟩
    rw [doRpc_ok_world]
    simp [classifyResponse, if_neg hst, hjson, classifyFailureTail, htext]

/-- C10 witness: with content-length `abc`, a 200 response returns the
empty object despite carrying a decodable JSON body, and a 400 response
skips both diagnostic reads and falls back to the plain ServerError. -/
theorem doRpc_unparseable_content_length_no_body_witness :
    jsParseInt "abc" = none ∧
    doRpc "GET" "url" none none { timedOut := false, result := .ok res200badLength } =
      .ok (.obj []) ∧
    (tryReadJsonObject res400badLength = none ∧ tryReadText res400badLength = none ∧
      doRpc "GET" "url" none none { timedOut := false, result := .ok res400badLength } =
        .error (mkServerError "400 Bad Request" (some 400))) :=
  ⟨rfl,
    (doRpc_unparseable_content_length_no_body "GET" "url" none none false res200badLength
      "abc" rfl (fun n h => by
        rw [show jsParseInt "abc" = none from rfl] at h
        exact Option.noConfusion h)).1 (by decide),
    (doRpc_unparseable_content_length_no_body "GET" "url" none none false res400badLength
      "abc" rfl (fun n h => by
        rw [show jsParseInt "abc" = none from rfl] at h
        exact Option.noConfusion h)).2 (by decide)⟩

end HttpJsonClient
